import Mathlib

/-!
Verification development for the jormungandr explorer test-harness client
(`testing/jormungandr-automation/src/jormungandr/explorer/mod.rs`): a shallow
embedding of the process supervisor (`ExplorerProcess`, its `Drop`
implementation, and the `Arc` sharing of it inside the `Explorer` facade),
the bootstrap wait loop of `Explorer::new`, the typed query methods, and the
`compare_schema` utility, together with theorems about their behaviour.

External collaborators that are not part of the provided sources (the
`client`, `data` and `wrappers` submodules, the `jortestkit` `Wait` and file
helpers, and the Rust standard library's `Arc` reference counting) are
modelled explicitly; each such definition carries a doc comment saying so.
-/

/-- The captured output of the spawned explorer process
(Rust `std::process::Output`): the bytes collected from the process's
standard output and standard error streams, modelled as strings. -/
structure ProcOutput where
  stdout : String
  stderr : String
deriving DecidableEq

/-- A spawned child process handle (Rust `std::process::Child`), abstracted
to the output that `kill` + `wait_with_output` would collect from it. -/
structure Child where
  out : ProcOutput
deriving DecidableEq

/-- `struct ExplorerProcess { handler: Option<Child>, logs_dir: Option<PathBuf> }`
from `explorer/mod.rs`.  Paths are modelled as strings. -/
structure ExplorerProcess where
  handler : Option Child
  logs_dir : Option String
deriving DecidableEq

/-- The externally observable effects of one run of
`<ExplorerProcess as Drop>::drop`: how many times the child was killed, how
many times it was waited on, and the diagnostics file written, if any,
as a `(path, contents)` pair. -/
structure DropEffects where
  kills : Nat
  waits : Nat
  written : Option (String × String)
deriving DecidableEq

/-- `impl Drop for ExplorerProcess` (`explorer/mod.rs`, lines 61-82): take the
handler (early-return when it is already `None`), kill the child and wait for
its output, and, only when the dropping thread is panicking AND a logs
directory was configured, write the captured stdout to
`logs_dir/explorer.log`.  The thread's panicking state is passed in as a
boolean; the returned pair is the mutated `self` plus the effects. -/
def ExplorerProcess.dropRun (panicking : Bool) (p : ExplorerProcess) :
    ExplorerProcess × DropEffects :=
  match p.handler with
  | none => (p, { kills := 0, waits := 0, written := none })
  | some handler =>
    let output := handler.out
    let written :=
      if panicking then
        match p.logs_dir with
        | some logs_dir => some (logs_dir ++ "/explorer.log", output.stdout)
        | none => none
      else none
    ({ handler := none, logs_dir := p.logs_dir },
     { kills := 1, waits := 1, written := written })

/-- The state of one `Arc<ExplorerProcess>` group: the strong reference
count maintained by `Arc`, the shared inner value, and the accumulated
teardown effects.  Models the Rust runtime behaviour that dropping the last
strong reference runs the inner value's `Drop` implementation. -/
structure ProcessGroup where
  strong : Nat
  proc : ExplorerProcess
  kills : Nat
  waits : Nat
  written : Option (String × String)
deriving DecidableEq

/-- Launch state: the `Arc::new(ExplorerProcess { handler: Some(child), logs_dir })`
performed by `Explorer::new` — one strong reference, live handler, no
teardown effects yet. -/
def ProcessGroup.launch (child : Child) (logs_dir : Option String) : ProcessGroup :=
  { strong := 1
    proc := { handler := some child, logs_dir := logs_dir }
    kills := 0
    waits := 0
    written := none }

/-- `Clone` of the `Explorer` facade as it affects the shared process:
`Arc::clone` increments the strong count and nothing else. -/
def ProcessGroup.clone (g : ProcessGroup) : ProcessGroup :=
  { g with strong := g.strong + 1 }

/-- Dropping one facade clone: `Arc`'s drop decrements the strong count,
and when the count reaches zero runs `ExplorerProcess`'s `Drop`
implementation on the shared value, recording its effects. -/
def ProcessGroup.dropHandle (panicking : Bool) (g : ProcessGroup) : ProcessGroup :=
  if g.strong = 1 then
    let r := g.proc.dropRun panicking
    { strong := 0
      proc := r.1
      kills := g.kills + r.2.kills
      waits := g.waits + r.2.waits
      written := g.written.or r.2.written }
  else { g with strong := g.strong - 1 }

/-- Modelled from the spec: the `jortestkit::process::Wait` helper used by
`Explorer::new` is not part of the provided sources; per the spec the
bootstrap prober "polls a lightweight endpoint at fixed intervals up to a
bounded attempt count".  `sleep` is the fixed interval (an abstract duration
in, say, milliseconds), `attempts` the bound, `current` how many attempts
have been consumed. -/
structure Wait where
  sleep : Nat
  attempts : Nat
  current : Nat
deriving DecidableEq

/-- Modelled from the spec: `Wait::new(sleep, attempts)` starts with no
attempt consumed. -/
def Wait.new (sleep attempts : Nat) : Wait :=
  { sleep := sleep, attempts := attempts, current := 0 }

/-- Modelled from the spec: the timeout is reached once the bounded attempt
count has been consumed. -/
def Wait.timeout_reached (w : Wait) : Bool :=
  w.attempts ≤ w.current

/-- Modelled from the spec: `advance` consumes one attempt (and, in the real
code, sleeps for the fixed interval). -/
def Wait.advance (w : Wait) : Wait :=
  { w with current := w.current + 1 }

/-- Counters observed while the bootstrap wait loop runs: how many HEAD
probes were issued and how many inter-attempt sleeps happened. -/
structure BootstrapStats where
  probes : Nat
  sleeps : Nat
deriving DecidableEq

/-- The bootstrap wait loop of `Explorer::new` (`explorer/mod.rs`, lines
111-122): `while !wait_bootstrap.timeout_reached() { if probe ok { break };
wait_bootstrap.advance(); }`.  The outcome of the k-th HEAD request is given
by the oracle `probe k` (`true` = some HTTP response was received,
whatever its status); `stats` accumulates the probes issued and sleeps
performed so far. -/
def bootstrapLoop (probe : Nat → Bool) (w : Wait) (stats : BootstrapStats) :
    BootstrapStats :=
  if w.timeout_reached then stats
  else if probe stats.probes then { probes := stats.probes + 1, sleeps := stats.sleeps }
  else bootstrapLoop probe w.advance { probes := stats.probes + 1, sleeps := stats.sleeps + 1 }
termination_by w.attempts - w.current
decreasing_by
  simp only [Wait.timeout_reached, decide_eq_true_eq, Wait.advance] at *
  omega

/-- The whole bootstrap wait as performed by `Explorer::new`: a fresh
`Wait::new(interval, maxAttempts)` driven by `bootstrapLoop` from zeroed
counters. -/
def bootstrapWait (probe : Nat → Bool) (interval maxAttempts : Nat) :
    BootstrapStats :=
  bootstrapLoop probe (Wait.new interval maxAttempts) { probes := 0, sleeps := 0 }

/-- Modelled from the spec: the error type of the `client` submodule
(`GraphQlClientError`), which is not part of the provided sources; it wraps
a transport/connection failure.  Abstracted to its message. -/
structure GraphQlClientError where
  msg : String
deriving DecidableEq

/-- A `serde_json::Error`.  Abstracted to its message. -/
structure SerdeError where
  msg : String
deriving DecidableEq

/-- A `reqwest::Error`, the HTTP library's error type.  In particular,
`reqwest::blocking::Response::json` returns `Result<T, reqwest::Error>`,
so a response body that cannot be parsed as the expected JSON envelope
surfaces as a `reqwest::Error` (decode kind).  Abstracted to its
message. -/
structure ReqwestError where
  msg : String
deriving DecidableEq

/-- `enum ExplorerError` from `explorer/mod.rs` (lines 39-47): a graph
client error, a JSON serialization error, or a request error from the HTTP
library. -/
inductive ExplorerError where
  | ClientError (e : GraphQlClientError)
  | SerializationError (e : SerdeError)
  | ReqwestError (e : ReqwestError)
deriving DecidableEq

/-- A `graphql_client::QueryBody`: the query document plus its variables.
Variable values are rendered as strings. -/
structure QueryBody where
  query : String
  vars : List (String × String)
deriving DecidableEq

/-- A raw `reqwest::blocking::Response`, abstracted to its body bytes. -/
structure RawResponse where
  raw : String
deriving DecidableEq

/-- A decoded `graphql_client::Response<T>` envelope.  The per-query typed
shapes are an externally supplied contract (spec §1), so the decoded body is
kept abstract; `raw` is its Debug rendering used by `Explorer::print_log`. -/
structure ResponseData where
  raw : String
deriving DecidableEq

/-- A `jormungandr_lib::interfaces::BlockDate` (epoch and slot). -/
structure BlockDate where
  epoch : Nat
  slot : Nat
deriving DecidableEq

/-- Modelled from the spec: the behaviour of the external collaborators a
query method talks to.  `run` is the transport step performed by
`GraphQlClient::run` (the `client` submodule is not in the provided
sources): it depends only on the client's base address and the query body
— per the spec, toggling verbose logging "has no effect on execution
semantics".  `json` is `reqwest::blocking::Response::json`, decoding a raw body into
the typed envelope; its failures are `reqwest::Error`s.  `block_date_of` is the extraction performed by
`wrappers::LastBlockResponse::block_date` (also not in the provided
sources): reading the embedded block timestamp out of the envelope. -/
structure ClientEnv where
  run : String → QueryBody → Except GraphQlClientError RawResponse
  json : RawResponse → Except ReqwestError ResponseData
  block_date_of : ResponseData → BlockDate

/-- Modelled from the spec: the `client::GraphQlClient`, holding the
resolved listen address of the explorer and a mutable verbose-logging
flag (spec §3 ClientEndpoint). -/
structure GraphQlClient where
  base : String
  print_on : Bool
deriving DecidableEq

/-- Modelled from the spec: `GraphQlClient::new(address)` — logging starts
enabled. -/
def GraphQlClient.new (base_address : String) : GraphQlClient :=
  { base := base_address, print_on := true }

/-- Modelled from the spec: `GraphQlClient::base_url`, the HTTP base URL of
the service. -/
def GraphQlClient.base_url (c : GraphQlClient) : String :=
  "http://" ++ c.base ++ "/"

/-- Modelled from the spec: `GraphQlClient::disable_print`. -/
def GraphQlClient.disable_print (c : GraphQlClient) : GraphQlClient :=
  { c with print_on := false }

/-- Modelled from the spec: `GraphQlClient::enable_print`. -/
def GraphQlClient.enable_print (c : GraphQlClient) : GraphQlClient :=
  { c with print_on := true }

/-- `data::PoolId`: a stake-pool identifier (rendered form). -/
abbrev PoolId := String

/-- A transaction hash (`jormungandr_lib::crypto::hash::Hash`), abstracted
to its string rendering. -/
abbrev Hash := String

/-!
The per-query `Variables` structs and `build_query` constructors below
mirror the `data` submodule, which the spec treats as an externally
supplied contract ("query kind → (document, variables type, response
type)", spec §9).  Each query document is identified by its operation name;
`build_query` packages the document with its rendered variables, as
`graphql_client`'s `GraphQLQuery::build_query` does.
-/

structure address.Variables where
  bech32 : String
deriving DecidableEq

/-- Modelled from the spec: `Address::build_query`. -/
def Address.build_query (v : address.Variables) : QueryBody :=
  { query := "Address", vars := [("bech32", v.bech32)] }

structure all_stake_pools.Variables where
  first : Int
deriving DecidableEq

/-- Modelled from the spec: `AllStakePools::build_query`. -/
def AllStakePools.build_query (v : all_stake_pools.Variables) : QueryBody :=
  { query := "AllStakePools", vars := [("first", toString v.first)] }

structure all_blocks.Variables where
  last : Int
deriving DecidableEq

/-- Modelled from the spec: `AllBlocks::build_query`. -/
def AllBlocks.build_query (v : all_blocks.Variables) : QueryBody :=
  { query := "AllBlocks", vars := [("last", toString v.last)] }

structure last_block.Variables where
deriving DecidableEq

/-- Modelled from the spec: `LastBlock::build_query`. -/
def LastBlock.build_query (_v : last_block.Variables) : QueryBody :=
  { query := "LastBlock", vars := [] }

structure blocks_by_chain_length.Variables where
  length : String
deriving DecidableEq

/-- Modelled from the spec: `BlocksByChainLength::build_query`. -/
def BlocksByChainLength.build_query (v : blocks_by_chain_length.Variables) : QueryBody :=
  { query := "BlocksByChainLength", vars := [("length", v.length)] }

structure epoch.Variables where
  id : String
  blocks_limit : Int
deriving DecidableEq

/-- Modelled from the spec: `Epoch::build_query`. -/
def Epoch.build_query (v : epoch.Variables) : QueryBody :=
  { query := "Epoch", vars := [("id", v.id), ("blocks_limit", toString v.blocks_limit)] }

structure stake_pool.Variables where
  id : PoolId
  first : Int
deriving DecidableEq

/-- Modelled from the spec: `StakePool::build_query`. -/
def StakePool.build_query (v : stake_pool.Variables) : QueryBody :=
  { query := "StakePool", vars := [("id", v.id), ("first", toString v.first)] }

structure settings.Variables where
deriving DecidableEq

/-- Modelled from the spec: `Settings::build_query`. -/
def Settings.build_query (_v : settings.Variables) : QueryBody :=
  { query := "Settings", vars := [] }

structure all_vote_plans.Variables where
  first : Int
deriving DecidableEq

/-- Modelled from the spec: `AllVotePlans::build_query`. -/
def AllVotePlans.build_query (v : all_vote_plans.Variables) : QueryBody :=
  { query := "AllVotePlans", vars := [("first", toString v.first)] }

structure transaction_by_id.Variables where
  id : String
deriving DecidableEq

/-- Modelled from the spec: `TransactionById::build_query`. -/
def TransactionById.build_query (v : transaction_by_id.Variables) : QueryBody :=
  { query := "TransactionById", vars := [("id", v.id)] }

/-- `wrappers::LastBlockResponse`, the wrapper built by
`Explorer::last_block` around the decoded envelope. -/
structure LastBlockResponse where
  inner : ResponseData
deriving DecidableEq

/-- `LastBlockResponse::new`. -/
def LastBlockResponse.new (response : ResponseData) : LastBlockResponse :=
  { inner := response }

/-- Modelled from the spec: `LastBlockResponse::block_date` (the `wrappers`
submodule is not in the provided sources) extracts the embedded block
timestamp from the envelope, here via the environment's extractor. -/
def LastBlockResponse.block_date (env : ClientEnv) (r : LastBlockResponse) : BlockDate :=
  env.block_date_of r.inner

/-- `struct Explorer` from `explorer/mod.rs` (lines 49-54): the GraphQL
client, the verbose-logging flag, and the shared explorer process
(`_process: Arc<ExplorerProcess>`, here the group state it refers to). -/
structure Explorer where
  client : GraphQlClient
  print_log : Bool
  _process : ProcessGroup
deriving DecidableEq

/-- `Explorer::new` (`explorer/mod.rs`, lines 85-129): spawn the explorer
binary (the `.expect` abort on spawn failure is modelled by `none`), wrap
the child in the shared process group, run the bootstrap wait
(`Wait::new(Duration::from_secs(1), 10)`, the interval being one second),
and construct the facade with logging enabled.  The bootstrap outcome is
discarded: it never affects the constructed value. -/
def Explorer.new (spawn_result : Option Child) (_node_address : String)
    (logs_dir : Option String) (explorer_listen_address : String)
    (probe : Nat → Bool) : Option Explorer :=
  match spawn_result with
  | none => none
  | some child =>
    let print_log := true
    let _process := ProcessGroup.launch child logs_dir
    let _stats := bootstrapWait probe 1 10
    some { client := GraphQlClient.new explorer_listen_address
           print_log := print_log
           _process := _process }

/-- `Explorer::uri`. -/
def Explorer.uri (e : Explorer) : String :=
  e.client.base_url

/-- `Explorer::disable_logs`. -/
def Explorer.disable_logs (e : Explorer) : Explorer :=
  { e with print_log := false, client := e.client.disable_print }

/-- `Explorer::enable_logs`. -/
def Explorer.enable_logs (e : Explorer) : Explorer :=
  { e with print_log := true, client := e.client.enable_print }

/-- `Explorer::print_request`: when logging is enabled, emit the
"running query: …, against: …" line; otherwise emit nothing.  Emitted
lines are returned as a list. -/
def Explorer.print_request (e : Explorer) (query : QueryBody) : List String :=
  if !e.print_log then []
  else ["running query: " ++ query.query ++ ", against: " ++ e.uri]

/-- `Explorer::print_log` (the private response-logging method; renamed
because the struct field of the same name occupies the Lean name): when
logging is enabled, emit the "Response: …" line for the Debug rendering of
the response. -/
def Explorer.print_response (e : Explorer) (response : String) : List String :=
  if e.print_log then ["Response: " ++ response] else []

/-- `Explorer::address` (`explorer/mod.rs`, lines 153-165): build the
query, log the request, run it through the client (transport failure maps
to `ClientError`), decode the body (`?` on `response.json()` maps a parse
failure — a `reqwest::Error` — to `ReqwestError` via the `#[from]`
conversion), log the decoded response, return it.  The result is paired with the lines
printed. -/
def Explorer.address (env : ClientEnv) (e : Explorer) (bech32_address : String) :
    Except ExplorerError ResponseData × List String :=
  let query := Address.build_query { bech32 := bech32_address }
  let log := e.print_request query
  match env.run e.client.base query with
  | .error err => (.error (.ClientError err), log)
  | .ok response =>
    match env.json response with
    | .error err => (.error (.ReqwestError err), log)
    | .ok response_body =>
      (.ok response_body, log ++ e.print_response response_body.raw)

/-- `Explorer::stake_pools` (lines 167-177): same request → log → execute →
decode → log pattern for the paginated stake-pool listing. -/
def Explorer.stake_pools (env : ClientEnv) (e : Explorer) (limit : Int) :
    Except ExplorerError ResponseData × List String :=
  let query := AllStakePools.build_query { first := limit }
  let log := e.print_request query
  match env.run e.client.base query with
  | .error err => (.error (.ClientError err), log)
  | .ok response =>
    match env.json response with
    | .error err => (.error (.ReqwestError err), log)
    | .ok response_body =>
      (.ok response_body, log ++ e.print_response response_body.raw)

/-- `Explorer::blocks` (lines 179-186). -/
def Explorer.blocks (env : ClientEnv) (e : Explorer) (limit : Int) :
    Except ExplorerError ResponseData × List String :=
  let query := AllBlocks.build_query { last := limit }
  let log := e.print_request query
  match env.run e.client.base query with
  | .error err => (.error (.ClientError err), log)
  | .ok response =>
    match env.json response with
    | .error err => (.error (.ReqwestError err), log)
    | .ok response_body =>
      (.ok response_body, log ++ e.print_response response_body.raw)

/-- `Explorer::last_block` (lines 188-195): the same pattern, with the
decoded envelope additionally wrapped in `LastBlockResponse::new`. -/
def Explorer.last_block (env : ClientEnv) (e : Explorer) :
    Except ExplorerError LastBlockResponse × List String :=
  let query := LastBlock.build_query {}
  let log := e.print_request query
  match env.run e.client.base query with
  | .error err => (.error (.ClientError err), log)
  | .ok response =>
    match env.json response with
    | .error err => (.error (.ReqwestError err), log)
    | .ok response_body =>
      (.ok (LastBlockResponse.new response_body), log ++ e.print_response response_body.raw)

/-- `Explorer::blocks_at_chain_length` (lines 197-209); the `u32` length is
rendered with `to_string` when the variables are built. -/
def Explorer.blocks_at_chain_length (env : ClientEnv) (e : Explorer) (length : Nat) :
    Except ExplorerError ResponseData × List String :=
  let query := BlocksByChainLength.build_query { length := toString length }
  let log := e.print_request query
  match env.run e.client.base query with
  | .error err => (.error (.ClientError err), log)
  | .ok response =>
    match env.json response with
    | .error err => (.error (.ReqwestError err), log)
    | .ok response_body =>
      (.ok response_body, log ++ e.print_response response_body.raw)

/-- `Explorer::epoch` (lines 211-225). -/
def Explorer.epoch (env : ClientEnv) (e : Explorer) (epoch_number : Nat) (limit : Int) :
    Except ExplorerError ResponseData × List String :=
  let query := Epoch.build_query { id := toString epoch_number, blocks_limit := limit }
  let log := e.print_request query
  match env.run e.client.base query with
  | .error err => (.error (.ClientError err), log)
  | .ok response =>
    match env.json response with
    | .error err => (.error (.ReqwestError err), log)
    | .ok response_body =>
      (.ok response_body, log ++ e.print_response response_body.raw)

/-- `Explorer::stake_pool` (lines 227-238). -/
def Explorer.stake_pool (env : ClientEnv) (e : Explorer) (id : PoolId) (limit : Int) :
    Except ExplorerError ResponseData × List String :=
  let query := StakePool.build_query { id := id, first := limit }
  let log := e.print_request query
  match env.run e.client.base query with
  | .error err => (.error (.ClientError err), log)
  | .ok response =>
    match env.json response with
    | .error err => (.error (.ReqwestError err), log)
    | .ok response_body =>
      (.ok response_body, log ++ e.print_response response_body.raw)

/-- `Explorer::settings` (lines 240-247). -/
def Explorer.settings (env : ClientEnv) (e : Explorer) :
    Except ExplorerError ResponseData × List String :=
  let query := Settings.build_query {}
  let log := e.print_request query
  match env.run e.client.base query with
  | .error err => (.error (.ClientError err), log)
  | .ok response =>
    match env.json response with
    | .error err => (.error (.ReqwestError err), log)
    | .ok response_body =>
      (.ok response_body, log ++ e.print_response response_body.raw)

/-- `Explorer::vote_plans` (lines 249-259). -/
def Explorer.vote_plans (env : ClientEnv) (e : Explorer) (limit : Int) :
    Except ExplorerError ResponseData × List String :=
  let query := AllVotePlans.build_query { first := limit }
  let log := e.print_request query
  match env.run e.client.base query with
  | .error err => (.error (.ClientError err), log)
  | .ok response =>
    match env.json response with
    | .error err => (.error (.ReqwestError err), log)
    | .ok response_body =>
      (.ok response_body, log ++ e.print_response response_body.raw)

/-- `Explorer::transaction` (lines 261-273); the hash is rendered with
`to_string` when the variables are built. -/
def Explorer.transaction (env : ClientEnv) (e : Explorer) (hash : Hash) :
    Except ExplorerError ResponseData × List String :=
  let query := TransactionById.build_query { id := hash }
  let log := e.print_request query
  match env.run e.client.base query with
  | .error err => (.error (.ClientError err), log)
  | .ok response =>
    match env.json response with
    | .error err => (.error (.ReqwestError err), log)
    | .ok response_body =>
      (.ok response_body, log ++ e.print_response response_body.raw)

/-- `Explorer::current_time` (lines 275-277):
`self.last_block().unwrap().block_date()`.  The `unwrap` panic on an error
result is modelled by `none`. -/
def Explorer.current_time (env : ClientEnv) (e : Explorer) : Option BlockDate :=
  match (e.last_block env).1 with
  | .ok r => some (r.block_date env)
  | .error _ => none

/-- `Explorer::run` (lines 279-287): run a caller-supplied query body and
return the raw response undecoded. -/
def Explorer.run (env : ClientEnv) (e : Explorer) (query : QueryBody) :
    Except ExplorerError RawResponse × List String :=
  let log := e.print_request query
  match env.run e.client.base query with
  | .error err => (.error (.ClientError err), log)
  | .ok response => (.ok response, log ++ e.print_response response.raw)

/-- A file system for the schema comparison utility: file path → contents
(`none` when the file does not exist). -/
abbrev FileSystem := String → Option String

/-- Modelled from the spec: `jortestkit::file::have_the_same_content` —
byte-for-byte comparison of the two files' contents. -/
def have_the_same_content (fs : FileSystem) (a b : String) : Bool :=
  fs a == fs b

/-- Modelled from the spec: `jortestkit::file::copy_file` with overwrite —
the destination's contents become the source's. -/
def copy_file (fs : FileSystem) (src dst : String) : FileSystem :=
  fun p => if p = dst then fs src else fs p

/-- The fixed repository-relative path of the checked-in expected schema,
from `compare_schema`. -/
def expected_schema_path : String :=
  "./jormungandr-automation/resources/explorer/graphql/schema.graphql"

/-- `compare_schema` (`explorer/mod.rs`, lines 297-306): when the actual
and expected files have the same content do nothing; otherwise overwrite
the expected file with the actual one and warn.  Returns the resulting
file system and whether the discrepancy warning was printed. -/
def compare_schema (fs : FileSystem) (actual_schema_path : String) :
    FileSystem × Bool :=
  if have_the_same_content fs actual_schema_path expected_schema_path then
    (fs, false)
  else
    (copy_file fs actual_schema_path expected_schema_path, true)

/-! Concrete fixtures used to instantiate the theorems below. -/

/-- A concrete child process whose stdout and stderr differ. -/
def child0 : Child :=
  { out := { stdout := "boot ok", stderr := "warn: slow start" } }

/-- A concrete `ExplorerProcess` with a live handler and a configured
diagnostics directory. -/
def proc0 : ExplorerProcess :=
  { handler := some child0, logs_dir := some "/tmp/logs" }

/-- A concrete environment in which transport and decoding both succeed. -/
def envOk : ClientEnv :=
  { run := fun _ _ => .ok { raw := "rawbody" }
    json := fun _ => .ok { raw := "body" }
    block_date_of := fun _ => { epoch := 4, slot := 2 } }

/-- A concrete environment in which the transport step fails. -/
def envClientErr : ClientEnv :=
  { run := fun _ _ => .error { msg := "connection refused" }
    json := fun _ => .ok { raw := "body" }
    block_date_of := fun _ => { epoch := 0, slot := 0 } }

/-- A concrete environment in which transport succeeds but the body cannot
be parsed as the expected JSON envelope (so `response.json()` fails with a
`reqwest::Error` of decode kind). -/
def envDecodeErr : ClientEnv :=
  { run := fun _ _ => .ok { raw := "<html>not json</html>" }
    json := fun _ => .error { msg := "error decoding response body" }
    block_date_of := fun _ => { epoch := 0, slot := 0 } }

/-- Whether a query-method result is an error of the serialization-error
kind (`ExplorerError::SerializationError`). -/
def result_is_serialization_kind : Except ExplorerError ResponseData → Bool
  | .error (.SerializationError _) => true
  | _ => false

/-- A concrete facade with verbose logging enabled. -/
def explorer0 : Explorer :=
  { client := GraphQlClient.new "127.0.0.1:13100"
    print_log := true
    _process := ProcessGroup.launch child0 none }

/-- A concrete facade with verbose logging disabled. -/
def explorer1 : Explorer :=
  { client := GraphQlClient.new "127.0.0.1:13100"
    print_log := false
    _process := ProcessGroup.launch child0 none }

/-- A concrete file system in which the actual and expected schema files
differ. -/
def fs0 : FileSystem := fun p =>
  if p = "actual-schema.graphql" then some "type Query: A"
  else if p = expected_schema_path then some "type Query: B"
  else none

/-- A concrete file system in which the actual and expected schema files
are byte-identical. -/
def fs1 : FileSystem := fun p =>
  if p = "actual-schema.graphql" then some "type Query: A"
  else if p = expected_schema_path then some "type Query: A"
  else none

/-!
## Theorems

Helper lemmas first, then one theorem per claim (with a witness when the
theorem carries hypotheses).
-/

/-- Cloning the facade `n` times after a launch yields a group with `n + 1`
strong references, a live handler, and no teardown effects. -/
theorem clone_iterate_launch (child : Child) (logs_dir : Option String) (n : Nat) :
    (ProcessGroup.clone)^[n] (ProcessGroup.launch child logs_dir) =
      { strong := n + 1
        proc := { handler := some child, logs_dir := logs_dir }
        kills := 0
        waits := 0
        written := none } := by
  induction n with
  | zero => rfl
  | succ n ih =>
    rw [Function.iterate_succ_apply', ih]
    rfl

/-- Dropping `k < m` of `m` live handles only decrements the strong count:
no teardown effect happens while another handle survives. -/
theorem dropHandle_iterate_lt (panicking : Bool) (pr : ExplorerProcess)
    (kills waits : Nat) (written : Option (String × String)) :
    ∀ k m : Nat, k < m →
      (ProcessGroup.dropHandle panicking)^[k]
          { strong := m, proc := pr, kills := kills, waits := waits, written := written } =
        { strong := m - k, proc := pr, kills := kills, waits := waits, written := written } := by
  intro k
  induction k with
  | zero => intro m _; rfl
  | succ k ih =>
    intro m hk
    have hm : ¬ (m = 1) := by omega
    have hstep : ProcessGroup.dropHandle panicking
        { strong := m, proc := pr, kills := kills, waits := waits, written := written } =
        { strong := m - 1, proc := pr, kills := kills, waits := waits, written := written } := by
      unfold ProcessGroup.dropHandle
      simp [hm]
    rw [Function.iterate_succ_apply, hstep, ih (m - 1) (by omega)]
    have : m - 1 - k = m - (k + 1) := by omega
    rw [this]

/-- C1: for every launched `Explorer` group, cloning the facade `n` times
and then releasing all `n + 1` handles (in any order — the handles are
indistinguishable, so every release order performs the same `n + 1`
identical drop steps) kills and waits on the underlying explorer process
exactly once, and no teardown at all happens before the last handle's
release. -/
theorem process_teardown_exactly_once (child : Child) (logs_dir : Option String)
    (panicking : Bool) (n : Nat) :
    (((ProcessGroup.dropHandle panicking)^[n + 1]
        ((ProcessGroup.clone)^[n] (ProcessGroup.launch child logs_dir))).kills = 1 ∧
     ((ProcessGroup.dropHandle panicking)^[n + 1]
        ((ProcessGroup.clone)^[n] (ProcessGroup.launch child logs_dir))).waits = 1) ∧
    ∀ k, k ≤ n →
      ((ProcessGroup.dropHandle panicking)^[k]
          ((ProcessGroup.clone)^[n] (ProcessGroup.launch child logs_dir))).kills = 0 ∧
      ((ProcessGroup.dropHandle panicking)^[k]
          ((ProcessGroup.clone)^[n] (ProcessGroup.launch child logs_dir))).waits = 0 := by
  rw [clone_iterate_launch]
  constructor
  · rw [Function.iterate_succ_apply',
      dropHandle_iterate_lt panicking _ 0 0 none n (n + 1) (by omega)]
    have h1 : n + 1 - n = 1 := by omega
    rw [h1]
    simp [ProcessGroup.dropHandle, ExplorerProcess.dropRun]
  · intro k hk
    rw [dropHandle_iterate_lt panicking _ 0 0 none k (n + 1) (by omega)]
    exact ⟨rfl, rfl⟩

/-- Witness for C1 at a concrete launch with two clones (three handles). -/
theorem process_teardown_exactly_once_witness :
    (((ProcessGroup.dropHandle false)^[3]
        ((ProcessGroup.clone)^[2] (ProcessGroup.launch child0 none))).kills = 1) ∧
    (((ProcessGroup.dropHandle false)^[2]
        ((ProcessGroup.clone)^[2] (ProcessGroup.launch child0 none))).kills = 0) :=
  ⟨(process_teardown_exactly_once child0 none false 2).1.1,
   ((process_teardown_exactly_once child0 none false 2).2 2 (by decide)).1⟩

/-- C2: when an `ExplorerProcess` with a live handler is dropped, the
`explorer.log` diagnostics file is written if and only if the dropping
thread is panicking AND a diagnostics directory was configured; when it is
written, it lands at `logs_dir/explorer.log` and contains the captured
process output. -/
theorem drop_writes_log_iff (panicking : Bool) (p : ExplorerProcess) (c : Child)
    (h : p.handler = some c) :
    (((ExplorerProcess.dropRun panicking p).2.written).isSome ↔
      panicking = true ∧ p.logs_dir.isSome) ∧
    (∀ dir, p.logs_dir = some dir → panicking = true →
      (ExplorerProcess.dropRun panicking p).2.written =
        some (dir ++ "/explorer.log", c.out.stdout)) := by
  obtain ⟨handler, logs_dir⟩ := p
  simp only at h
  subst h
  constructor
  · cases panicking <;> cases logs_dir <;>
      simp [ExplorerProcess.dropRun]
  · intro dir hdir hp
    subst hp
    simp only at hdir
    subst hdir
    simp [ExplorerProcess.dropRun]

/-- Witness for C2: a panicking teardown of `proc0` writes the log file
under the configured directory with the captured stdout. -/
theorem drop_writes_log_iff_witness :
    (ExplorerProcess.dropRun true proc0).2.written =
      some ("/tmp/logs" ++ "/explorer.log", child0.out.stdout) :=
  (drop_writes_log_iff true proc0 child0 rfl).2 "/tmp/logs" rfl rfl

/-- C9: whatever is written to the diagnostics file at teardown is exactly
the captured standard output of the child whose handler was live; the
captured standard error never reaches the file. -/
theorem log_content_is_stdout_only (panicking : Bool) (p : ExplorerProcess)
    (c : Child) (path content : String) (hc : p.handler = some c)
    (h : (ExplorerProcess.dropRun panicking p).2.written = some (path, content)) :
    content = c.out.stdout := by
  obtain ⟨handler, logs_dir⟩ := p
  simp only at hc
  subst hc
  cases panicking <;> cases logs_dir <;>
    simp [ExplorerProcess.dropRun] at h
  exact h.2.symm

/-- Witness for C9 at a concrete process whose stderr differs from its
stdout: the written content is the stdout, not the stderr. -/
theorem log_content_is_stdout_only_witness :
    "boot ok" = child0.out.stdout :=
  log_content_is_stdout_only true proc0 child0 "/tmp/logs/explorer.log" "boot ok" rfl rfl

/-- The wait loop issues at most `fuel` more probes and sleeps at most
`fuel` more times, where `fuel` is the remaining attempt budget. -/
theorem bootstrapLoop_le (probe : Nat → Bool) :
    ∀ fuel w stats, w.attempts - w.current = fuel →
      (bootstrapLoop probe w stats).probes ≤ stats.probes + fuel ∧
      (bootstrapLoop probe w stats).sleeps ≤ stats.sleeps + fuel := by
  intro fuel
  induction fuel with
  | zero =>
    intro w stats h
    have ht : w.timeout_reached = true := by
      simp only [Wait.timeout_reached, decide_eq_true_eq]
      omega
    rw [bootstrapLoop]
    simp [ht]
  | succ fuel ih =>
    intro w stats h
    have ht : w.timeout_reached = false := by
      simp only [Wait.timeout_reached, decide_eq_false_iff_not]
      omega
    rw [bootstrapLoop]
    simp only [ht, Bool.false_eq_true, if_false]
    cases hp : probe stats.probes with
    | true =>
      simp only [hp, if_true]
      exact ⟨by omega, by omega⟩
    | false =>
      simp only [hp, Bool.false_eq_true, if_false]
      have hrec := ih w.advance { probes := stats.probes + 1, sleeps := stats.sleeps + 1 }
        (by simp only [Wait.advance]; omega)
      constructor
      · calc (bootstrapLoop probe w.advance
              { probes := stats.probes + 1, sleeps := stats.sleeps + 1 }).probes
            ≤ stats.probes + 1 + fuel := hrec.1
          _ ≤ stats.probes + (fuel + 1) := by omega
      · calc (bootstrapLoop probe w.advance
              { probes := stats.probes + 1, sleeps := stats.sleeps + 1 }).sleeps
            ≤ stats.sleeps + 1 + fuel := hrec.2
          _ ≤ stats.sleeps + (fuel + 1) := by omega

/-- When the first received response is the `k`-th probe and the budget
allows it, the wait loop stops right there: `k + 1` probes issued, `k`
sleeps performed. -/
theorem bootstrapLoop_first_success (probe : Nat → Bool) :
    ∀ fuel k w stats, w.attempts - w.current = fuel → k < fuel →
      (∀ j, j < k → probe (stats.probes + j) = false) →
      probe (stats.probes + k) = true →
      bootstrapLoop probe w stats =
        { probes := stats.probes + k + 1, sleeps := stats.sleeps + k } := by
  intro fuel
  induction fuel with
  | zero =>
    intro k w stats _ hk
    exact absurd hk (by omega)
  | succ fuel ih =>
    intro k w stats hfuel hk hbefore hsucc
    have ht : w.timeout_reached = false := by
      simp only [Wait.timeout_reached, decide_eq_false_iff_not]
      omega
    rw [bootstrapLoop]
    simp only [ht, Bool.false_eq_true, if_false]
    cases k with
    | zero =>
      have h0 : probe stats.probes = true := by simpa using hsucc
      simp [h0]
    | succ k =>
      have h0 : probe stats.probes = false := by
        have := hbefore 0 (by omega)
        simpa using this
      simp only [h0, Bool.false_eq_true, if_false]
      have hrec := ih k w.advance { probes := stats.probes + 1, sleeps := stats.sleeps + 1 }
        (by simp only [Wait.advance]; omega) (by omega)
        (fun j hj => by
          have hj1 := hbefore (j + 1) (by omega)
          have harg : stats.probes + (j + 1) = stats.probes + 1 + j := by omega
          rw [harg] at hj1
          simpa using hj1)
        (by
          have harg : stats.probes + (k + 1) = stats.probes + 1 + k := by omega
          rw [harg] at hsucc
          simpa using hsucc)
      rw [hrec]
      dsimp only
      simp only [BootstrapStats.mk.injEq]
      constructor <;> omega

/-- C3: for every configuration of `(interval, maxAttempts)` and every
probe oracle, the bootstrap wait of `Explorer::new` issues at most
`maxAttempts` probes and sleeps at most `maxAttempts` intervals — so it
ends within `interval * maxAttempts` wall-clock time whether or not the
service ever responds — and the first received response (whatever its
status) ends the wait immediately, after exactly that probe. -/
theorem bootstrap_wait_bounded (probe : Nat → Bool) (interval maxAttempts : Nat) :
    (bootstrapWait probe interval maxAttempts).probes ≤ maxAttempts ∧
    (bootstrapWait probe interval maxAttempts).sleeps ≤ maxAttempts ∧
    interval * (bootstrapWait probe interval maxAttempts).sleeps ≤
      interval * maxAttempts ∧
    (∀ i, i < maxAttempts → probe i = true → (∀ j, j < i → probe j = false) →
      (bootstrapWait probe interval maxAttempts).probes = i + 1 ∧
      (bootstrapWait probe interval maxAttempts).sleeps = i) := by
  have hle := bootstrapLoop_le probe maxAttempts (Wait.new interval maxAttempts)
    { probes := 0, sleeps := 0 } (by simp [Wait.new])
  refine ⟨?_, ?_, ?_, ?_⟩
  · simpa [bootstrapWait] using hle.1
  · simpa [bootstrapWait] using hle.2
  · exact Nat.mul_le_mul_left interval (by simpa [bootstrapWait] using hle.2)
  · intro i hi hsucc hbefore
    have hfs := bootstrapLoop_first_success probe maxAttempts i
      (Wait.new interval maxAttempts) { probes := 0, sleeps := 0 }
      (by simp [Wait.new]) hi
      (fun j hj => by simpa using hbefore j hj)
      (by simpa using hsucc)
    rw [bootstrapWait, hfs]
    constructor <;> simp

/-- Witness for C3: with a probe oracle that first responds on attempt 3
and the configuration `(interval = 1, maxAttempts = 10)`, the wait issues
exactly 4 probes and performs 3 sleeps, within the 10-attempt budget. -/
theorem bootstrap_wait_bounded_witness :
    (bootstrapWait (fun i => decide (i = 3)) 1 10).probes = 3 + 1 ∧
    (bootstrapWait (fun i => decide (i = 3)) 1 10).sleeps = 3 :=
  (bootstrap_wait_bounded (fun i => decide (i = 3)) 1 10).2.2.2 3
    (by decide) (by decide) (by decide)

/-- C4: when the spawn succeeded but the probe budget is exhausted without
any response (the oracle never answers), `Explorer::new` still returns a
fully constructed `Explorer` — the bootstrap timeout is never surfaced as
an error or a panic. -/
theorem new_returns_despite_timeout (child : Child) (node_address : String)
    (logs_dir : Option String) (listen_address : String) (probe : Nat → Bool)
    (hprobe : ∀ i, probe i = false) :
    Explorer.new (some child) node_address logs_dir listen_address probe =
      some { client := GraphQlClient.new listen_address
             print_log := true
             _process := ProcessGroup.launch child logs_dir } := by
  rfl

/-- Witness for C4 with the never-answering oracle. -/
theorem new_returns_despite_timeout_witness :
    Explorer.new (some child0) "127.0.0.1:8080" none "127.0.0.1:13100"
        (fun _ => false) =
      some { client := GraphQlClient.new "127.0.0.1:13100"
             print_log := true
             _process := ProcessGroup.launch child0 none } :=
  new_returns_despite_timeout child0 "127.0.0.1:8080" none "127.0.0.1:13100"
    (fun _ => false) (fun _ => rfl)

/-- C6: `Explorer::current_time` is exactly the block date of a successful
last-block query, and aborts (modelled by `none`, for the `unwrap` panic)
whenever the last-block query returns any error. -/
theorem current_time_follows_last_block (env : ClientEnv) (e : Explorer) :
    (∀ r log, e.last_block env = (.ok r, log) →
      e.current_time env = some (r.block_date env)) ∧
    (∀ err log, e.last_block env = (.error err, log) →
      e.current_time env = none) := by
  constructor
  · intro r log h
    unfold Explorer.current_time
    rw [h]
  · intro err log h
    unfold Explorer.current_time
    rw [h]

/-- Witness for C6: on the all-successful environment the current time is
the extracted block date; on the failing-transport environment the call
aborts. -/
theorem current_time_follows_last_block_witness :
    explorer1.current_time envOk =
      some ((LastBlockResponse.new { raw := "body" }).block_date envOk) ∧
    explorer1.current_time envClientErr = none :=
  ⟨(current_time_follows_last_block envOk explorer1).1
      (LastBlockResponse.new { raw := "body" }) [] rfl,
   (current_time_follows_last_block envClientErr explorer1).2
      (.ClientError { msg := "connection refused" }) [] rfl⟩

/-- C8: `compare_schema` never raises (it is a total function returning
normally in both branches); when the actual and expected schema files have
identical content nothing is overwritten and no warning is emitted, and
when they differ the expected file afterwards equals the actual file
exactly and an immediately repeated run finds no discrepancy. -/
theorem compare_schema_idempotent (fs : FileSystem) (actual : String) :
    (fs actual = fs expected_schema_path → compare_schema fs actual = (fs, false)) ∧
    (fs actual ≠ fs expected_schema_path →
      (compare_schema fs actual).2 = true ∧
      (compare_schema fs actual).1 expected_schema_path = fs actual ∧
      compare_schema (compare_schema fs actual).1 actual =
        ((compare_schema fs actual).1, false)) := by
  constructor
  · intro h
    unfold compare_schema have_the_same_content
    rw [if_pos (by simp [h])]
  · intro h
    have hcond : have_the_same_content fs actual expected_schema_path = false := by
      simp [have_the_same_content, h]
    have hfirst : compare_schema fs actual =
        (copy_file fs actual expected_schema_path, true) := by
      unfold compare_schema
      rw [if_neg (by simp [hcond])]
    refine ⟨by rw [hfirst], by rw [hfirst]; simp [copy_file], ?_⟩
    rw [hfirst]
    have hsame : have_the_same_content
        (copy_file fs actual expected_schema_path) actual expected_schema_path = true := by
      unfold have_the_same_content copy_file
      by_cases hae : actual = expected_schema_path <;> simp [hae]
    unfold compare_schema
    rw [if_pos (by simp [hsame])]

/-- Witness for C8 at concrete file systems: identical files are left
alone; differing files are reconciled, after which a second run is clean. -/
theorem compare_schema_idempotent_witness :
    compare_schema fs1 "actual-schema.graphql" = (fs1, false) ∧
    ((compare_schema fs0 "actual-schema.graphql").2 = true ∧
      (compare_schema fs0 "actual-schema.graphql").1 expected_schema_path =
        fs0 "actual-schema.graphql" ∧
      compare_schema (compare_schema fs0 "actual-schema.graphql").1
          "actual-schema.graphql" =
        ((compare_schema fs0 "actual-schema.graphql").1, false)) :=
  ⟨(compare_schema_idempotent fs1 "actual-schema.graphql").1 (by decide),
   (compare_schema_idempotent fs0 "actual-schema.graphql").2 (by decide)⟩

/-- C5 (amended): for every facade query method, a transport/connection
failure yields the client-error kind (`ExplorerError::ClientError`), and a
response body that cannot be parsed as the expected JSON envelope yields
the request-error kind (`ExplorerError::ReqwestError`) wrapping the HTTP
library's decode error — `response.json()` is reqwest's method, whose
failures convert via `#[from] reqwest::Error`, never producing the
serialization-error kind. -/
theorem query_error_kinds :
    (∀ (env : ClientEnv) (e : Explorer) (s : String) (err : GraphQlClientError),
      env.run e.client.base (Address.build_query { bech32 := s }) = .error err →
      (Explorer.address env e s).1 = .error (.ClientError err)) ∧
    (∀ (env : ClientEnv) (e : Explorer) (s : String) (r : RawResponse)
        (err : ReqwestError),
      env.run e.client.base (Address.build_query { bech32 := s }) = .ok r →
      env.json r = .error err →
      (Explorer.address env e s).1 = .error (.ReqwestError err)) ∧
    (∀ (env : ClientEnv) (e : Explorer) (limit : Int) (err : GraphQlClientError),
      env.run e.client.base (AllStakePools.build_query { first := limit }) = .error err →
      (Explorer.stake_pools env e limit).1 = .error (.ClientError err)) ∧
    (∀ (env : ClientEnv) (e : Explorer) (limit : Int) (r : RawResponse)
        (err : ReqwestError),
      env.run e.client.base (AllStakePools.build_query { first := limit }) = .ok r →
      env.json r = .error err →
      (Explorer.stake_pools env e limit).1 = .error (.ReqwestError err)) ∧
    (∀ (env : ClientEnv) (e : Explorer) (limit : Int) (err : GraphQlClientError),
      env.run e.client.base (AllBlocks.build_query { last := limit }) = .error err →
      (Explorer.blocks env e limit).1 = .error (.ClientError err)) ∧
    (∀ (env : ClientEnv) (e : Explorer) (limit : Int) (r : RawResponse)
        (err : ReqwestError),
      env.run e.client.base (AllBlocks.build_query { last := limit }) = .ok r →
      env.json r = .error err →
      (Explorer.blocks env e limit).1 = .error (.ReqwestError err)) ∧
    (∀ (env : ClientEnv) (e : Explorer) (err : GraphQlClientError),
      env.run e.client.base (LastBlock.build_query {}) = .error err →
      (Explorer.last_block env e).1 = .error (.ClientError err)) ∧
    (∀ (env : ClientEnv) (e : Explorer) (r : RawResponse)
        (err : ReqwestError),
      env.run e.client.base (LastBlock.build_query {}) = .ok r →
      env.json r = .error err →
      (Explorer.last_block env e).1 = .error (.ReqwestError err)) ∧
    (∀ (env : ClientEnv) (e : Explorer) (length : Nat) (err : GraphQlClientError),
      env.run e.client.base (BlocksByChainLength.build_query { length := toString length }) = .error err →
      (Explorer.blocks_at_chain_length env e length).1 = .error (.ClientError err)) ∧
    (∀ (env : ClientEnv) (e : Explorer) (length : Nat) (r : RawResponse)
        (err : ReqwestError),
      env.run e.client.base (BlocksByChainLength.build_query { length := toString length }) = .ok r →
      env.json r = .error err →
      (Explorer.blocks_at_chain_length env e length).1 = .error (.ReqwestError err)) ∧
    (∀ (env : ClientEnv) (e : Explorer) (epoch_number : Nat) (limit : Int) (err : GraphQlClientError),
      env.run e.client.base (Epoch.build_query { id := toString epoch_number, blocks_limit := limit }) = .error err →
      (Explorer.epoch env e epoch_number limit).1 = .error (.ClientError err)) ∧
    (∀ (env : ClientEnv) (e : Explorer) (epoch_number : Nat) (limit : Int) (r : RawResponse)
        (err : ReqwestError),
      env.run e.client.base (Epoch.build_query { id := toString epoch_number, blocks_limit := limit }) = .ok r →
      env.json r = .error err →
      (Explorer.epoch env e epoch_number limit).1 = .error (.ReqwestError err)) ∧
    (∀ (env : ClientEnv) (e : Explorer) (id : PoolId) (limit : Int) (err : GraphQlClientError),
      env.run e.client.base (StakePool.build_query { id := id, first := limit }) = .error err →
      (Explorer.stake_pool env e id limit).1 = .error (.ClientError err)) ∧
    (∀ (env : ClientEnv) (e : Explorer) (id : PoolId) (limit : Int) (r : RawResponse)
        (err : ReqwestError),
      env.run e.client.base (StakePool.build_query { id := id, first := limit }) = .ok r →
      env.json r = .error err →
      (Explorer.stake_pool env e id limit).1 = .error (.ReqwestError err)) ∧
    (∀ (env : ClientEnv) (e : Explorer) (err : GraphQlClientError),
      env.run e.client.base (Settings.build_query {}) = .error err →
      (Explorer.settings env e).1 = .error (.ClientError err)) ∧
    (∀ (env : ClientEnv) (e : Explorer) (r : RawResponse)
        (err : ReqwestError),
      env.run e.client.base (Settings.build_query {}) = .ok r →
      env.json r = .error err →
      (Explorer.settings env e).1 = .error (.ReqwestError err)) ∧
    (∀ (env : ClientEnv) (e : Explorer) (limit : Int) (err : GraphQlClientError),
      env.run e.client.base (AllVotePlans.build_query { first := limit }) = .error err →
      (Explorer.vote_plans env e limit).1 = .error (.ClientError err)) ∧
    (∀ (env : ClientEnv) (e : Explorer) (limit : Int) (r : RawResponse)
        (err : ReqwestError),
      env.run e.client.base (AllVotePlans.build_query { first := limit }) = .ok r →
      env.json r = .error err →
      (Explorer.vote_plans env e limit).1 = .error (.ReqwestError err)) ∧
    (∀ (env : ClientEnv) (e : Explorer) (hash : Hash) (err : GraphQlClientError),
      env.run e.client.base (TransactionById.build_query { id := hash }) = .error err →
      (Explorer.transaction env e hash).1 = .error (.ClientError err)) ∧
    (∀ (env : ClientEnv) (e : Explorer) (hash : Hash) (r : RawResponse)
        (err : ReqwestError),
      env.run e.client.base (TransactionById.build_query { id := hash }) = .ok r →
      env.json r = .error err →
      (Explorer.transaction env e hash).1 = .error (.ReqwestError err)) := by
  refine ⟨?_, ?_, ?_, ?_, ?_, ?_, ?_, ?_, ?_, ?_, ?_, ?_, ?_, ?_, ?_, ?_, ?_, ?_, ?_, ?_⟩
  · intro env e s err h
    simp only [Explorer.address, h]
  · intro env e s r err h1 h2
    simp only [Explorer.address, h1, h2]
  · intro env e limit err h
    simp only [Explorer.stake_pools, h]
  · intro env e limit r err h1 h2
    simp only [Explorer.stake_pools, h1, h2]
  · intro env e limit err h
    simp only [Explorer.blocks, h]
  · intro env e limit r err h1 h2
    simp only [Explorer.blocks, h1, h2]
  · intro env e err h
    simp only [Explorer.last_block, h]
  · intro env e r err h1 h2
    simp only [Explorer.last_block, h1, h2]
  · intro env e length err h
    simp only [Explorer.blocks_at_chain_length, h]
  · intro env e length r err h1 h2
    simp only [Explorer.blocks_at_chain_length, h1, h2]
  · intro env e epoch_number limit err h
    simp only [Explorer.epoch, h]
  · intro env e epoch_number limit r err h1 h2
    simp only [Explorer.epoch, h1, h2]
  · intro env e id limit err h
    simp only [Explorer.stake_pool, h]
  · intro env e id limit r err h1 h2
    simp only [Explorer.stake_pool, h1, h2]
  · intro env e err h
    simp only [Explorer.settings, h]
  · intro env e r err h1 h2
    simp only [Explorer.settings, h1, h2]
  · intro env e limit err h
    simp only [Explorer.vote_plans, h]
  · intro env e limit r err h1 h2
    simp only [Explorer.vote_plans, h1, h2]
  · intro env e hash err h
    simp only [Explorer.transaction, h]
  · intro env e hash r err h1 h2
    simp only [Explorer.transaction, h1, h2]

/-- Counterexample to C5 as stated: at a concrete invocation whose
response body cannot be parsed as the expected JSON envelope, the result
is the request-error kind wrapping the HTTP library's decode error, and is
NOT the serialization-error kind. -/
theorem query_json_failure_not_serialization_kind :
    (Explorer.address envDecodeErr explorer0 "addr1").1 =
      .error (.ReqwestError { msg := "error decoding response body" }) ∧
    result_is_serialization_kind
      (Explorer.address envDecodeErr explorer0 "addr1").1 = false := by
  constructor <;> rfl

/-- Witness for the amended C5: each of the twenty cases instantiated at a
concrete facade and environments. -/
theorem query_error_kinds_witness :
    (Explorer.address envClientErr explorer0 "addr1").1 =
      .error (.ClientError { msg := "connection refused" }) ∧
    (Explorer.address envDecodeErr explorer0 "addr1").1 =
      .error (.ReqwestError { msg := "error decoding response body" }) ∧
    (Explorer.stake_pools envClientErr explorer0 5).1 =
      .error (.ClientError { msg := "connection refused" }) ∧
    (Explorer.stake_pools envDecodeErr explorer0 5).1 =
      .error (.ReqwestError { msg := "error decoding response body" }) ∧
    (Explorer.blocks envClientErr explorer0 5).1 =
      .error (.ClientError { msg := "connection refused" }) ∧
    (Explorer.blocks envDecodeErr explorer0 5).1 =
      .error (.ReqwestError { msg := "error decoding response body" }) ∧
    (Explorer.last_block envClientErr explorer0).1 =
      .error (.ClientError { msg := "connection refused" }) ∧
    (Explorer.last_block envDecodeErr explorer0).1 =
      .error (.ReqwestError { msg := "error decoding response body" }) ∧
    (Explorer.blocks_at_chain_length envClientErr explorer0 7).1 =
      .error (.ClientError { msg := "connection refused" }) ∧
    (Explorer.blocks_at_chain_length envDecodeErr explorer0 7).1 =
      .error (.ReqwestError { msg := "error decoding response body" }) ∧
    (Explorer.epoch envClientErr explorer0 2 5).1 =
      .error (.ClientError { msg := "connection refused" }) ∧
    (Explorer.epoch envDecodeErr explorer0 2 5).1 =
      .error (.ReqwestError { msg := "error decoding response body" }) ∧
    (Explorer.stake_pool envClientErr explorer0 "pool1" 5).1 =
      .error (.ClientError { msg := "connection refused" }) ∧
    (Explorer.stake_pool envDecodeErr explorer0 "pool1" 5).1 =
      .error (.ReqwestError { msg := "error decoding response body" }) ∧
    (Explorer.settings envClientErr explorer0).1 =
      .error (.ClientError { msg := "connection refused" }) ∧
    (Explorer.settings envDecodeErr explorer0).1 =
      .error (.ReqwestError { msg := "error decoding response body" }) ∧
    (Explorer.vote_plans envClientErr explorer0 5).1 =
      .error (.ClientError { msg := "connection refused" }) ∧
    (Explorer.vote_plans envDecodeErr explorer0 5).1 =
      .error (.ReqwestError { msg := "error decoding response body" }) ∧
    (Explorer.transaction envClientErr explorer0 "deadbeef").1 =
      .error (.ClientError { msg := "connection refused" }) ∧
    (Explorer.transaction envDecodeErr explorer0 "deadbeef").1 =
      .error (.ReqwestError { msg := "error decoding response body" }) :=
  ⟨query_error_kinds.1 envClientErr explorer0 "addr1"
      { msg := "connection refused" } rfl,
   query_error_kinds.2.1 envDecodeErr explorer0 "addr1"
      { raw := "<html>not json</html>" } { msg := "error decoding response body" } rfl rfl,
   query_error_kinds.2.2.1 envClientErr explorer0 5
      { msg := "connection refused" } rfl,
   query_error_kinds.2.2.2.1 envDecodeErr explorer0 5
      { raw := "<html>not json</html>" } { msg := "error decoding response body" } rfl rfl,
   query_error_kinds.2.2.2.2.1 envClientErr explorer0 5
      { msg := "connection refused" } rfl,
   query_error_kinds.2.2.2.2.2.1 envDecodeErr explorer0 5
      { raw := "<html>not json</html>" } { msg := "error decoding response body" } rfl rfl,
   query_error_kinds.2.2.2.2.2.2.1 envClientErr explorer0
      { msg := "connection refused" } rfl,
   query_error_kinds.2.2.2.2.2.2.2.1 envDecodeErr explorer0
      { raw := "<html>not json</html>" } { msg := "error decoding response body" } rfl rfl,
   query_error_kinds.2.2.2.2.2.2.2.2.1 envClientErr explorer0 7
      { msg := "connection refused" } rfl,
   query_error_kinds.2.2.2.2.2.2.2.2.2.1 envDecodeErr explorer0 7
      { raw := "<html>not json</html>" } { msg := "error decoding response body" } rfl rfl,
   query_error_kinds.2.2.2.2.2.2.2.2.2.2.1 envClientErr explorer0 2 5
      { msg := "connection refused" } rfl,
   query_error_kinds.2.2.2.2.2.2.2.2.2.2.2.1 envDecodeErr explorer0 2 5
      { raw := "<html>not json</html>" } { msg := "error decoding response body" } rfl rfl,
   query_error_kinds.2.2.2.2.2.2.2.2.2.2.2.2.1 envClientErr explorer0 "pool1" 5
      { msg := "connection refused" } rfl,
   query_error_kinds.2.2.2.2.2.2.2.2.2.2.2.2.2.1 envDecodeErr explorer0 "pool1" 5
      { raw := "<html>not json</html>" } { msg := "error decoding response body" } rfl rfl,
   query_error_kinds.2.2.2.2.2.2.2.2.2.2.2.2.2.2.1 envClientErr explorer0
      { msg := "connection refused" } rfl,
   query_error_kinds.2.2.2.2.2.2.2.2.2.2.2.2.2.2.2.1 envDecodeErr explorer0
      { raw := "<html>not json</html>" } { msg := "error decoding response body" } rfl rfl,
   query_error_kinds.2.2.2.2.2.2.2.2.2.2.2.2.2.2.2.2.1 envClientErr explorer0 5
      { msg := "connection refused" } rfl,
   query_error_kinds.2.2.2.2.2.2.2.2.2.2.2.2.2.2.2.2.2.1 envDecodeErr explorer0 5
      { raw := "<html>not json</html>" } { msg := "error decoding response body" } rfl rfl,
   query_error_kinds.2.2.2.2.2.2.2.2.2.2.2.2.2.2.2.2.2.2.1 envClientErr explorer0 "deadbeef"
      { msg := "connection refused" } rfl,
   query_error_kinds.2.2.2.2.2.2.2.2.2.2.2.2.2.2.2.2.2.2.2 envDecodeErr explorer0 "deadbeef"
      { raw := "<html>not json</html>" } { msg := "error decoding response body" } rfl rfl⟩

/-- C7: for every facade query method, the returned result is identical
whether verbose logging is enabled or disabled — the `print_log` flag
affects only the lines printed, never the value returned. -/
theorem query_result_independent_of_logging :
    (∀ (env : ClientEnv) (e : Explorer) (s : String),
      (Explorer.address env { e with print_log := true } s).1 =
      (Explorer.address env { e with print_log := false } s).1) ∧
    (∀ (env : ClientEnv) (e : Explorer) (limit : Int),
      (Explorer.stake_pools env { e with print_log := true } limit).1 =
      (Explorer.stake_pools env { e with print_log := false } limit).1) ∧
    (∀ (env : ClientEnv) (e : Explorer) (limit : Int),
      (Explorer.blocks env { e with print_log := true } limit).1 =
      (Explorer.blocks env { e with print_log := false } limit).1) ∧
    (∀ (env : ClientEnv) (e : Explorer),
      (Explorer.last_block env { e with print_log := true }).1 =
      (Explorer.last_block env { e with print_log := false }).1) ∧
    (∀ (env : ClientEnv) (e : Explorer) (length : Nat),
      (Explorer.blocks_at_chain_length env { e with print_log := true } length).1 =
      (Explorer.blocks_at_chain_length env { e with print_log := false } length).1) ∧
    (∀ (env : ClientEnv) (e : Explorer) (epoch_number : Nat) (limit : Int),
      (Explorer.epoch env { e with print_log := true } epoch_number limit).1 =
      (Explorer.epoch env { e with print_log := false } epoch_number limit).1) ∧
    (∀ (env : ClientEnv) (e : Explorer) (id : PoolId) (limit : Int),
      (Explorer.stake_pool env { e with print_log := true } id limit).1 =
      (Explorer.stake_pool env { e with print_log := false } id limit).1) ∧
    (∀ (env : ClientEnv) (e : Explorer),
      (Explorer.settings env { e with print_log := true }).1 =
      (Explorer.settings env { e with print_log := false }).1) ∧
    (∀ (env : ClientEnv) (e : Explorer) (limit : Int),
      (Explorer.vote_plans env { e with print_log := true } limit).1 =
      (Explorer.vote_plans env { e with print_log := false } limit).1) ∧
    (∀ (env : ClientEnv) (e : Explorer) (hash : Hash),
      (Explorer.transaction env { e with print_log := true } hash).1 =
      (Explorer.transaction env { e with print_log := false } hash).1) := by
  refine ⟨?_, ?_, ?_, ?_, ?_, ?_, ?_, ?_, ?_, ?_⟩
  · intro env e s
    obtain ⟨client, pl, proc⟩ := e
    simp only [Explorer.address]
    cases hr : env.run client.base (Address.build_query { bech32 := s }) with
    | error err => simp [hr]
    | ok resp =>
      cases hj : env.json resp with
      | error err => simp [hr, hj]
      | ok body => simp [hr, hj]
  · intro env e limit
    obtain ⟨client, pl, proc⟩ := e
    simp only [Explorer.stake_pools]
    cases hr : env.run client.base (AllStakePools.build_query { first := limit }) with
    | error err => simp [hr]
    | ok resp =>
      cases hj : env.json resp with
      | error err => simp [hr, hj]
      | ok body => simp [hr, hj]
  · intro env e limit
    obtain ⟨client, pl, proc⟩ := e
    simp only [Explorer.blocks]
    cases hr : env.run client.base (AllBlocks.build_query { last := limit }) with
    | error err => simp [hr]
    | ok resp =>
      cases hj : env.json resp with
      | error err => simp [hr, hj]
      | ok body => simp [hr, hj]
  · intro env e
    obtain ⟨client, pl, proc⟩ := e
    simp only [Explorer.last_block]
    cases hr : env.run client.base (LastBlock.build_query {}) with
    | error err => simp [hr]
    | ok resp =>
      cases hj : env.json resp with
      | error err => simp [hr, hj]
      | ok body => simp [hr, hj]
  · intro env e length
    obtain ⟨client, pl, proc⟩ := e
    simp only [Explorer.blocks_at_chain_length]
    cases hr : env.run client.base (BlocksByChainLength.build_query { length := toString length }) with
    | error err => simp [hr]
    | ok resp =>
      cases hj : env.json resp with
      | error err => simp [hr, hj]
      | ok body => simp [hr, hj]
  · intro env e epoch_number limit
    obtain ⟨client, pl, proc⟩ := e
    simp only [Explorer.epoch]
    cases hr : env.run client.base (Epoch.build_query { id := toString epoch_number, blocks_limit := limit }) with
    | error err => simp [hr]
    | ok resp =>
      cases hj : env.json resp with
      | error err => simp [hr, hj]
      | ok body => simp [hr, hj]
  · intro env e id limit
    obtain ⟨client, pl, proc⟩ := e
    simp only [Explorer.stake_pool]
    cases hr : env.run client.base (StakePool.build_query { id := id, first := limit }) with
    | error err => simp [hr]
    | ok resp =>
      cases hj : env.json resp with
      | error err => simp [hr, hj]
      | ok body => simp [hr, hj]
  · intro env e
    obtain ⟨client, pl, proc⟩ := e
    simp only [Explorer.settings]
    cases hr : env.run client.base (Settings.build_query {}) with
    | error err => simp [hr]
    | ok resp =>
      cases hj : env.json resp with
      | error err => simp [hr, hj]
      | ok body => simp [hr, hj]
  · intro env e limit
    obtain ⟨client, pl, proc⟩ := e
    simp only [Explorer.vote_plans]
    cases hr : env.run client.base (AllVotePlans.build_query { first := limit }) with
    | error err => simp [hr]
    | ok resp =>
      cases hj : env.json resp with
      | error err => simp [hr, hj]
      | ok body => simp [hr, hj]
  · intro env e hash
    obtain ⟨client, pl, proc⟩ := e
    simp only [Explorer.transaction]
    cases hr : env.run client.base (TransactionById.build_query { id := hash }) with
    | error err => simp [hr]
    | ok resp =>
      cases hj : env.json resp with
      | error err => simp [hr, hj]
      | ok body => simp [hr, hj]

/-- C10: every `Explorer` returned by `Explorer::new` starts with verbose
logging enabled, and while the flag is set (that is, until `disable_logs`
is called) each query method prints both the request line and the decoded
response line. -/
theorem logging_enabled_from_launch :
    (∀ (child : Child) (node_address : String) (logs_dir : Option String)
        (listen_address : String) (probe : Nat → Bool) (e : Explorer),
      Explorer.new (some child) node_address logs_dir listen_address probe = some e →
      e.print_log = true) ∧
    (∀ (env : ClientEnv) (e : Explorer) (s : String) (r : RawResponse)
        (body : ResponseData),
      e.print_log = true →
      env.run e.client.base (Address.build_query { bech32 := s }) = .ok r →
      env.json r = .ok body →
      (Explorer.address env e s).2 =
        ["running query: " ++ "Address" ++ ", against: " ++ e.uri,
         "Response: " ++ body.raw]) ∧
    (∀ (env : ClientEnv) (e : Explorer) (limit : Int) (r : RawResponse)
        (body : ResponseData),
      e.print_log = true →
      env.run e.client.base (AllStakePools.build_query { first := limit }) = .ok r →
      env.json r = .ok body →
      (Explorer.stake_pools env e limit).2 =
        ["running query: " ++ "AllStakePools" ++ ", against: " ++ e.uri,
         "Response: " ++ body.raw]) ∧
    (∀ (env : ClientEnv) (e : Explorer) (limit : Int) (r : RawResponse)
        (body : ResponseData),
      e.print_log = true →
      env.run e.client.base (AllBlocks.build_query { last := limit }) = .ok r →
      env.json r = .ok body →
      (Explorer.blocks env e limit).2 =
        ["running query: " ++ "AllBlocks" ++ ", against: " ++ e.uri,
         "Response: " ++ body.raw]) ∧
    (∀ (env : ClientEnv) (e : Explorer) (r : RawResponse)
        (body : ResponseData),
      e.print_log = true →
      env.run e.client.base (LastBlock.build_query {}) = .ok r →
      env.json r = .ok body →
      (Explorer.last_block env e).2 =
        ["running query: " ++ "LastBlock" ++ ", against: " ++ e.uri,
         "Response: " ++ body.raw]) ∧
    (∀ (env : ClientEnv) (e : Explorer) (length : Nat) (r : RawResponse)
        (body : ResponseData),
      e.print_log = true →
      env.run e.client.base (BlocksByChainLength.build_query { length := toString length }) = .ok r →
      env.json r = .ok body →
      (Explorer.blocks_at_chain_length env e length).2 =
        ["running query: " ++ "BlocksByChainLength" ++ ", against: " ++ e.uri,
         "Response: " ++ body.raw]) ∧
    (∀ (env : ClientEnv) (e : Explorer) (epoch_number : Nat) (limit : Int) (r : RawResponse)
        (body : ResponseData),
      e.print_log = true →
      env.run e.client.base (Epoch.build_query { id := toString epoch_number, blocks_limit := limit }) = .ok r →
      env.json r = .ok body →
      (Explorer.epoch env e epoch_number limit).2 =
        ["running query: " ++ "Epoch" ++ ", against: " ++ e.uri,
         "Response: " ++ body.raw]) ∧
    (∀ (env : ClientEnv) (e : Explorer) (id : PoolId) (limit : Int) (r : RawResponse)
        (body : ResponseData),
      e.print_log = true →
      env.run e.client.base (StakePool.build_query { id := id, first := limit }) = .ok r →
      env.json r = .ok body →
      (Explorer.stake_pool env e id limit).2 =
        ["running query: " ++ "StakePool" ++ ", against: " ++ e.uri,
         "Response: " ++ body.raw]) ∧
    (∀ (env : ClientEnv) (e : Explorer) (r : RawResponse)
        (body : ResponseData),
      e.print_log = true →
      env.run e.client.base (Settings.build_query {}) = .ok r →
      env.json r = .ok body →
      (Explorer.settings env e).2 =
        ["running query: " ++ "Settings" ++ ", against: " ++ e.uri,
         "Response: " ++ body.raw]) ∧
    (∀ (env : ClientEnv) (e : Explorer) (limit : Int) (r : RawResponse)
        (body : ResponseData),
      e.print_log = true →
      env.run e.client.base (AllVotePlans.build_query { first := limit }) = .ok r →
      env.json r = .ok body →
      (Explorer.vote_plans env e limit).2 =
        ["running query: " ++ "AllVotePlans" ++ ", against: " ++ e.uri,
         "Response: " ++ body.raw]) ∧
    (∀ (env : ClientEnv) (e : Explorer) (hash : Hash) (r : RawResponse)
        (body : ResponseData),
      e.print_log = true →
      env.run e.client.base (TransactionById.build_query { id := hash }) = .ok r →
      env.json r = .ok body →
      (Explorer.transaction env e hash).2 =
        ["running query: " ++ "TransactionById" ++ ", against: " ++ e.uri,
         "Response: " ++ body.raw]) := by
  refine ⟨?_, ?_, ?_, ?_, ?_, ?_, ?_, ?_, ?_, ?_, ?_⟩
  · intro child node_address logs_dir listen_address probe e h
    simp only [Explorer.new, Option.some.injEq] at h
    subst h
    rfl
  · intro env e s r body hpl h1 h2
    simp only [Address.build_query] at h1
    simp [Explorer.address, Explorer.print_request, Explorer.print_response,
      Address.build_query, hpl, h1, h2]
  · intro env e limit r body hpl h1 h2
    simp only [AllStakePools.build_query] at h1
    simp [Explorer.stake_pools, Explorer.print_request, Explorer.print_response,
      AllStakePools.build_query, hpl, h1, h2]
  · intro env e limit r body hpl h1 h2
    simp only [AllBlocks.build_query] at h1
    simp [Explorer.blocks, Explorer.print_request, Explorer.print_response,
      AllBlocks.build_query, hpl, h1, h2]
  · intro env e r body hpl h1 h2
    simp only [LastBlock.build_query] at h1
    simp [Explorer.last_block, Explorer.print_request, Explorer.print_response,
      LastBlock.build_query, hpl, h1, h2]
  · intro env e length r body hpl h1 h2
    simp only [BlocksByChainLength.build_query] at h1
    simp [Explorer.blocks_at_chain_length, Explorer.print_request, Explorer.print_response,
      BlocksByChainLength.build_query, hpl, h1, h2]
  · intro env e epoch_number limit r body hpl h1 h2
    simp only [Epoch.build_query] at h1
    simp [Explorer.epoch, Explorer.print_request, Explorer.print_response,
      Epoch.build_query, hpl, h1, h2]
  · intro env e id limit r body hpl h1 h2
    simp only [StakePool.build_query] at h1
    simp [Explorer.stake_pool, Explorer.print_request, Explorer.print_response,
      StakePool.build_query, hpl, h1, h2]
  · intro env e r body hpl h1 h2
    simp only [Settings.build_query] at h1
    simp [Explorer.settings, Explorer.print_request, Explorer.print_response,
      Settings.build_query, hpl, h1, h2]
  · intro env e limit r body hpl h1 h2
    simp only [AllVotePlans.build_query] at h1
    simp [Explorer.vote_plans, Explorer.print_request, Explorer.print_response,
      AllVotePlans.build_query, hpl, h1, h2]
  · intro env e hash r body hpl h1 h2
    simp only [TransactionById.build_query] at h1
    simp [Explorer.transaction, Explorer.print_request, Explorer.print_response,
      TransactionById.build_query, hpl, h1, h2]

/-- Witness for C10: the facade constructed by a concrete launch has
logging enabled, and a concrete successful address query on a
logging-enabled facade prints exactly the request and the decoded
response. -/
theorem logging_enabled_from_launch_witness :
    ({ client := GraphQlClient.new "127.0.0.1:13100"
       print_log := true
       _process := ProcessGroup.launch child0 none } : Explorer).print_log = true ∧
    (Explorer.address envOk explorer0 "addr1").2 =
      ["running query: " ++ "Address" ++ ", against: " ++ explorer0.uri,
       "Response: " ++ ({ raw := "body" } : ResponseData).raw] :=
  ⟨logging_enabled_from_launch.1 child0 "127.0.0.1:8080" none "127.0.0.1:13100"
      (fun _ => false)
      { client := GraphQlClient.new "127.0.0.1:13100"
        print_log := true
        _process := ProcessGroup.launch child0 none } rfl,
   logging_enabled_from_launch.2.1 envOk explorer0 "addr1"
      { raw := "rawbody" } { raw := "body" } rfl rfl rfl⟩
